import Mathlib

/-!
Verification development for the TruthGuardAgent client bridge
(`Backend/integrations/adk_client_gcp.py` and `Backend/refresh_token.py`).

The Python code is shallowly embedded: JSON values become an inductive
type, the dynamic (duck-typed) operations used by the code — `dict.get`,
subscripting, `in`, `for ... in`, truthiness, `or`, `.lower()` — become
total Lean functions returning `Except PyErr _` where the Python operation
can raise, and the stream-reassembly loop of `_run`, the post-processing
of `call_adk`, and the token refresher become explicit functions over
those values.  External collaborators (the HTTP transport, `json.loads`,
the identity provider) are modelled as opaque inputs: each stream line
carries the outcome of `json.loads` on it, and each refresh cycle carries
the outcome of the provider interaction.
-/

set_option autoImplicit false

namespace TruthGuard

/-- JSON values, as produced by `json.loads` on one stream line. Numbers are
modelled as integers (no claim depends on fractional payload numbers). -/
inductive Json where
  | null
  | bool (b : Bool)
  | num (n : Int)
  | str (s : String)
  | arr (elems : List Json)
  | obj (fields : List (String × Json))

/-- Python exceptions that the embedded code can raise.  `adkError msg`
models `ADKError(msg)`; the others model the builtin exception classes
that the dynamic operations below can raise. -/
inductive PyErr where
  | adkError (msg : String)
  | attributeError
  | typeError
  | keyError
  | indexError
deriving DecidableEq, Repr

/-- Python truthiness of a JSON value (`bool(x)`). -/
def Json.truthy : Json → Bool
  | .null => false
  | .bool b => b
  | .num n => n != 0
  | .str s => !s.isEmpty
  | .arr xs => !xs.isEmpty
  | .obj fs => !fs.isEmpty

/-- Python `a or b` on JSON values: `a` if truthy, else `b`. -/
def pyOr (a b : Json) : Json := if a.truthy then a else b

/-- Python `x.get(key, dflt)`: defined on dicts, raises `AttributeError`
on every other value. -/
def Json.getKey (j : Json) (key : String) (dflt : Json) : Except PyErr Json :=
  match j with
  | .obj fs => .ok ((fs.lookup key).getD dflt)
  | _ => .error .attributeError

/-- Python `for part in parts`: lists iterate their elements, dicts their
keys, strings their one-character substrings; other values raise
`TypeError`. -/
def Json.pyIter : Json → Except PyErr (List Json)
  | .arr xs => .ok xs
  | .obj fs => .ok (fs.map (fun p => .str p.1))
  | .str s => .ok (s.data.map (fun c => .str (String.mk [c])))
  | _ => .error .typeError

/-- Does the character list `hay` start with `needle`? -/
def startsWithL : List Char → List Char → Bool
  | _, [] => true
  | [], _ :: _ => false
  | a :: as, b :: bs => a == b && startsWithL as bs

/-- Does the character list `hay` contain `needle` as a contiguous run? -/
def containsSub : List Char → List Char → Bool
  | [], needle => startsWithL [] needle
  | a :: as, needle => startsWithL (a :: as) needle || containsSub as needle

/-- Python substring test `needle in hay` on strings. -/
def strContains (hay needle : String) : Bool := containsSub hay.data needle.data

/-- Python `key in part` for a string `key`: key membership on dicts,
substring on strings, element membership on lists (equality with a string
compares true only against that string); other values raise `TypeError`. -/
def Json.memStr (j : Json) (key : String) : Except PyErr Bool :=
  match j with
  | .obj fs => .ok (fs.any (fun p => p.1 == key))
  | .str s => .ok (strContains s key)
  | .arr xs => .ok (xs.any (fun x => match x with | .str s => s == key | _ => false))
  | _ => .error .typeError

/-- Python `x[key]` for a string `key`: dict lookup (raising `KeyError`
when absent); lists, strings and the remaining values raise `TypeError`. -/
def Json.index (j : Json) (key : String) : Except PyErr Json :=
  match j with
  | .obj fs =>
    match fs.lookup key with
    | some v => .ok v
    | none => .error .keyError
  | _ => .error .typeError

/-- Python `x[-1]`: last element of a list or string (raising `IndexError`
when empty); dicts raise `KeyError` (no integer key), others `TypeError`. -/
def Json.indexNeg1 : Json → Except PyErr Json
  | .arr xs =>
    match xs.getLast? with
    | some v => .ok v
    | none => .error .indexError
  | .str s =>
    match s.data.getLast? with
    | some c => .ok (.str (String.mk [c]))
    | none => .error .indexError
  | .obj _ => .error .keyError
  | _ => .error .typeError

/-- Python `x[0]`: first element of a list or string (raising `IndexError`
when empty); dicts raise `KeyError`, others `TypeError`. -/
def Json.index0 : Json → Except PyErr Json
  | .arr xs =>
    match xs.head? with
    | some v => .ok v
    | none => .error .indexError
  | .str s =>
    match s.data.head? with
    | some c => .ok (.str (String.mk [c]))
    | none => .error .indexError
  | .obj _ => .error .keyError
  | _ => .error .typeError

/-- Truthiness of `line and line.strip()` (line 85): a line passes the
check exactly when it contains a non-whitespace character (`line` is then
nonempty and `line.strip()` nonempty as well). -/
def pyLineNonBlank (s : String) : Bool := s.data.any (fun c => !c.isWhitespace)

/-- Python `s.lower()` on the ASCII range, written structurally over the
character list so that it evaluates inside the kernel. -/
def strLower (s : String) : String := String.mk (s.data.map Char.toLower)

/-- One line delivered by `r.iter_lines(decode_unicode=True)`, together
with the outcome of `json.loads` on it: `none` models a
`json.JSONDecodeError`, `some v` a successful parse to `v`.  `json.loads`
itself is an external collaborator, so its outcome is part of the input. -/
structure Line where
  content : String
  parsed : Option Json

/-- The inner `for part in parts` loop of `_run` (lines 96–98): append
`part["text"]` to the accumulator for every part with a `"text"` member. -/
def partsLoop : List Json → List Json → Except PyErr (List Json)
  | [], acc => .ok acc
  | part :: rest, acc =>
    match part.memStr "text" with
    | .error e => .error e
    | .ok true =>
      match part.index "text" with
      | .error e => .error e
      | .ok t => partsLoop rest (acc ++ [t])
    | .ok false => partsLoop rest acc

/-- Per-fragment body of the loop in `_run` (lines 93–98):
`content = data.get("content", {})`, `parts = content.get("parts", [])`,
then the parts loop.  Only `json.JSONDecodeError` is caught by the
enclosing `try`, so the `AttributeError`/`TypeError` these operations can
raise escape as errors. -/
def extractTexts (data : Json) : Except PyErr (List Json) :=
  match data.getKey "content" (.obj []) with
  | .error e => .error e
  | .ok content =>
    match content.getKey "parts" (.arr []) with
    | .error e => .error e
    | .ok parts =>
      match parts.pyIter with
      | .error e => .error e
      | .ok ps => partsLoop ps []

/-- The stream-reassembly loop of `_run` (lines 84–102): skip blank lines
(`if line and line.strip()`), skip lines whose `json.loads` raises
(`except json.JSONDecodeError: continue`), and accumulate the extracted
text parts of every other line. -/
def decodeLines : List Line → List Json → Except PyErr (List Json)
  | [], acc => .ok acc
  | l :: rest, acc =>
    if pyLineNonBlank l.content then
      match l.parsed with
      | none => decodeLines rest acc
      | some data =>
        match extractTexts data with
        | .error e => .error e
        | .ok ts => decodeLines rest (acc ++ ts)
    else decodeLines rest acc

/-- Final selection of `_run` (line 105):
`response_text = text_parts[-1] if text_parts else ""`. -/
def runDecode (ls : List Line) : Except PyErr Json :=
  match decodeLines ls [] with
  | .error e => .error e
  | .ok ts => .ok (ts.getLast?.getD (.str ""))

/-- The single log entry `_run` wraps its answer in (line 109). -/
def logEntry (t : Json) : Json :=
  .obj [("content", .obj [("parts", .arr [.obj [("text", t)]])])]

/-- The envelope `_run` returns on success (line 109):
`{"logs": [{"content": {"parts": [{"text": response_text}]}}]}`. -/
def envelopeOf (t : Json) : Json := .obj [("logs", .arr [logEntry t])]

/-- Body of `_run` on the path where the HTTP POST succeeded and produced the
given stream of lines; the transport, token and timeout failures that
precede the loop are external to this model. -/
def runEnvelope (ls : List Line) : Except PyErr Json :=
  match runDecode ls with
  | .error e => .error e
  | .ok t => .ok (envelopeOf t)

/-- The candidate texts a single line contributes to the accumulator of
`decodeLines`: nothing for a blank or unparseable line, the extracted
text parts otherwise. -/
def lineTexts (l : Line) : Except PyErr (List Json) :=
  if pyLineNonBlank l.content then
    match l.parsed with
    | none => .ok []
    | some data => extractTexts data
  else .ok []

/-- The candidate texts of a whole stream, in order, failing at the first
line whose extraction raises.  `decodeLines_eq` below proves this equal
to the accumulator loop of `_run`. -/
def allTexts : List Line → Except PyErr (List Json)
  | [] => .ok []
  | l :: rest =>
    match lineTexts l with
    | .error e => .error e
    | .ok ts =>
      match allTexts rest with
      | .error e => .error e
      | .ok us => .ok (ts ++ us)

/-- The result dict `call_adk` returns (lines 155–160).  `confidence` is
either `1.0` or `0.5`, both exactly representable, so it is modelled in
`ℚ`; `raw_final` carries whatever JSON value the text path produced. -/
structure QueryResult where
  verdict : String
  confidence : ℚ
  evidence : List Json
  raw_final : Json

/-- Python `(x or "").lower()` succeeds with the lowercased string when
`x` is a string or falsy, and raises `AttributeError` on every other
(truthy non-string) value.  Here it returns the string before lowering;
the classifier below applies the lowering, as each occurrence of
`(final_text or "").lower()` in the source does. -/
def pyStrOrEmpty (j : Json) : Except PyErr String :=
  match pyOr j (.str "") with
  | .str s => .ok s
  | _ => .error .attributeError

/-- The verdict heuristic of `call_adk` (lines 143–148): `"verified"` when
the lowercased text contains `"legitimate"` or `"verdict: true"`, else
`"unverified"`. -/
def verdictOf (final_text : String) : String :=
  if strContains (strLower final_text) "legitimate"
      || strContains (strLower final_text) "verdict: true" then
    "verified"
  else
    "unverified"

/-- The confidence heuristic of `call_adk` (lines 149–153): `1.0` when the
lowercased text contains `"confidence: 1.0"`, else `0.5`. -/
def confidenceOf (final_text : String) : ℚ :=
  if strContains (strLower final_text) "confidence: 1.0" then 1 else 1/2

/-- Modelled from the spec: case-insensitive substring containment, the
relation the Verdict Classifier section states the classifier decides
("the text contains the substring", matched case-insensitively). -/
def containsCI (text pat : String) : Bool :=
  strContains (strLower text) (strLower pat)

/-- Extraction `logs[-1]["content"]["parts"][0]["text"]` (line 133). -/
def extractFinalText (logs : Json) : Except PyErr Json :=
  match logs.indexNeg1 with
  | .error e => .error e
  | .ok lastLog =>
    match lastLog.index "content" with
    | .error e => .error e
    | .ok content =>
      match content.index "parts" with
      | .error e => .error e
      | .ok parts =>
        match parts.index0 with
        | .error e => .error e
        | .ok p0 => p0.index "text"

/-- The part of `call_adk` after `_run` returned `data` (lines 127–160):
the `logs` emptiness check, the final-text extraction with its
`except (KeyError, IndexError, TypeError)` wrapper, and the classifier. -/
def call_adk_post (data : Json) : Except PyErr QueryResult :=
  match data.getKey "logs" (.arr []) with
  | .error e => .error e
  | .ok logs =>
    if logs.truthy then
      match extractFinalText logs with
      | .error .keyError => .error (.adkError "missing final text in response")
      | .error .indexError => .error (.adkError "missing final text in response")
      | .error .typeError => .error (.adkError "missing final text in response")
      | .error e => .error e
      | .ok final_text =>
        match pyStrOrEmpty final_text with
        | .error e => .error e
        | .ok ft =>
          .ok { verdict := verdictOf ft, confidence := confidenceOf ft,
                evidence := [], raw_final := final_text }
    else .error (.adkError "missing logs in response")

/-- The user-id derivation of `call_adk` (lines 113–116):
`user = metadata.get("user") or {}` then
`user.get("wa_from") or user.get("id") or "anonymous"`.  It runs before
the `try` block, so its exceptions propagate unwrapped. -/
def deriveUserId (metadata : Json) : Except PyErr Json :=
  match metadata.getKey "user" .null with
  | .error e => .error e
  | .ok u =>
    let user := pyOr u (.obj [])
    match user.getKey "wa_from" .null with
    | .error e => .error e
    | .ok w =>
      match user.getKey "id" .null with
      | .error e => .error e
      | .ok i => .ok (pyOr w (pyOr i (.str "anonymous")))

/-- Model of `call_adk(query, metadata)` on the path where the HTTP POST succeeded
and produced the given stream: derive the user id, run the decoder, pass
`ADKError`s through, wrap any other exception of `_run` as
`ADKError("unexpected")` (lines 118–125), then post-process. -/
def call_adk (stream : List Line) (metadata : Json) : Except PyErr QueryResult :=
  match deriveUserId metadata with
  | .error e => .error e
  | .ok _uid =>
    match runEnvelope stream with
    | .error (.adkError m) => .error (.adkError m)
    | .error _ => .error (.adkError "unexpected")
    | .ok data => call_adk_post data

/-- Does a `call_adk_post` outcome consist of a raised `ADKError`? -/
def isAdkErrorResult : Except PyErr QueryResult → Bool
  | .error (.adkError _) => true
  | _ => false

/-! ## `Backend/refresh_token.py` -/

/-- The module-level `token_data = {"access_token": None, "expiry": 0}`
dict.  `expiry` holds `creds.expiry.timestamp()`, a real-valued epoch
timestamp, modelled in `ℚ`. -/
structure TokenData where
  access_token : Option String
  expiry : ℚ
deriving DecidableEq, Repr

/-- The shared mutable state `refresh_token` writes: the `token_data`
dict and the `GCP_ACCESS_TOKEN` environment variable. -/
structure RefreshState where
  token_data : TokenData
  env_gcp_access_token : Option String
deriving DecidableEq, Repr

/-- State of `token_data` at import time: `{"access_token": None, "expiry": 0}`. -/
def initialRefreshState : RefreshState :=
  { token_data := { access_token := none, expiry := 0 }, env_gcp_access_token := none }

/-- Outcome of one interaction with the identity provider (an external
collaborator): `from_service_account_file` raised, `creds.refresh`
raised, or both succeeded yielding `creds.token` and
`creds.expiry.timestamp()`. -/
inductive ProviderOutcome where
  | fileError
  | refreshError
  | success (token : String) (expiry : ℚ)
deriving DecidableEq, Repr

/-- The sequence of states a successful `refresh_token` passes through,
one per mutating statement, in source order: after
`token_data["access_token"] = creds.token` (line 21), after
`token_data["expiry"] = creds.expiry.timestamp()` (line 22), and after
`os.environ["GCP_ACCESS_TOKEN"] = creds.token` (line 25).  These are
three separate statements with no lock, so a concurrent reader can
observe any of these states (or the state before the first write). -/
def refreshWriteStates (st : RefreshState) (tok : String) (exp : ℚ) : List RefreshState :=
  [ { st with token_data := { st.token_data with access_token := some tok } },
    { st with token_data := { access_token := some tok, expiry := exp } },
    { token_data := { access_token := some tok, expiry := exp },
      env_gcp_access_token := some tok } ]

/-- The states a concurrent reader can observe while one `refresh_token`
call with the given provider outcome runs: the prior state, and — on the
success path — each intermediate write state. -/
def observableStates (st : RefreshState) : ProviderOutcome → List RefreshState
  | .fileError => [st]
  | .refreshError => [st]
  | .success tok exp => st :: refreshWriteStates st tok exp

/-- Model of `refresh_token()` as a state transition (lines 12–27): the two
provider calls precede every write, so a provider failure leaves the
state untouched; a success runs the three writes.  The `Bool` records
whether the call returned normally (`true`) or raised (`false`). -/
def refresh_token (st : RefreshState) : ProviderOutcome → RefreshState × Bool
  | .fileError => (st, false)
  | .refreshError => (st, false)
  | .success tok exp => ((refreshWriteStates st tok exp).getLastD st, true)

/-- The scheduler loop of `schedule_refresh` (lines 39–50) driven by a
finite prefix of provider outcomes: each cycle calls `refresh_token`
inside `try ... except Exception`, so a raising cycle leaves the loop
running and the next cycle still executes. -/
def runCycles (st : RefreshState) : List ProviderOutcome → RefreshState
  | [] => st
  | o :: rest => runCycles (refresh_token st o).1 rest

/-- Events in the execution of `schedule_refresh`, used to state which
execution unit performs which work (prints are omitted). -/
inductive SchedAction where
  | refreshAttempt
  | sleep (seconds : Nat)
  | startBackground
deriving DecidableEq, Repr

/-- The actions `schedule_refresh(interval)` performs in the calling
execution unit before it returns (lines 29–50): the initial
`refresh_token()` attempt inside `try/except` (lines 33–36), then
`threading.Thread(target=loop, daemon=True).start()` (line 50). -/
def schedule_refresh_caller (_interval : Nat) : List SchedAction :=
  [.refreshAttempt, .startBackground]

/-- One iteration of the background `loop` (lines 40–47):
`time.sleep(interval)` then a `refresh_token()` attempt inside
`try/except`. -/
def backgroundCycle (interval : Nat) : List SchedAction :=
  [.sleep interval, .refreshAttempt]

/-- The first `n` iterations of the (unbounded) background loop. -/
def backgroundTrace (interval : Nat) : Nat → List SchedAction
  | 0 => []
  | n + 1 => backgroundCycle interval ++ backgroundTrace interval n

/-! ## Concrete inputs used by counterexamples and witnesses -/

/-- A well-formed fragment whose single part carries the text `"hello"`. -/
def fragTextHello : Json :=
  .obj [("content", .obj [("parts", .arr [.obj [("text", .str "hello")]])])]

/-- A well-formed fragment whose single part carries the empty text. -/
def fragTextEmpty : Json :=
  .obj [("content", .obj [("parts", .arr [.obj [("text", .str "")]])])]

/-- A stream whose last fragment has an empty text part while an earlier
fragment has a non-empty one. -/
def streamC1 : List Line := [⟨"l1", some fragTextHello⟩, ⟨"l2", some fragTextEmpty⟩]

/-- The stream line `5`: valid JSON, hence no `json.JSONDecodeError`, but
not an object, so `data.get("content", {})` raises `AttributeError`. -/
def lineNum5 : Line := ⟨"5", some (.num 5)⟩

/-- Metadata whose user block carries a present-but-empty `wa_from`
alongside a non-empty `id`. -/
def metaC5 : Json := .obj [("user", .obj [("wa_from", .str ""), ("id", .str "bob")])]

/-- A refresh state holding a previously stored credential. -/
def priorState : RefreshState :=
  { token_data := { access_token := some "oldtok", expiry := 100 },
    env_gcp_access_token := some "oldtok" }

/-! ## Stream decoder: structure of the accumulator loop -/

/-- The accumulator loop of `_run` computes the concatenation of the
per-line candidate texts, in stream order. -/
theorem decodeLines_eq (ls : List Line) (acc : List Json) :
    decodeLines ls acc = match allTexts ls with
      | .error e => .error e
      | .ok ts => .ok (acc ++ ts) := by
  induction ls generalizing acc with
  | nil => simp [decodeLines, allTexts]
  | cons l rest ih =>
    by_cases hc : pyLineNonBlank l.content = true
    · cases hp : l.parsed with
      | none =>
        simp only [decodeLines, allTexts, lineTexts, if_pos hc, hp, ih]
        cases allTexts rest <;> simp
      | some data =>
        cases he : extractTexts data with
        | error e =>
          simp [decodeLines, allTexts, lineTexts, if_pos hc, hp, he]
        | ok ts =>
          simp only [decodeLines, allTexts, lineTexts, if_pos hc, hp, he, ih]
          cases allTexts rest <;> simp
    · simp only [decodeLines, allTexts, lineTexts, if_neg hc, ih]
      cases allTexts rest <;> simp

/-- `runDecode` in terms of the candidate-text list. -/
theorem runDecode_eq (ls : List Line) :
    runDecode ls = match allTexts ls with
      | .error e => .error e
      | .ok ts => .ok (ts.getLast?.getD (.str "")) := by
  simp only [runDecode, decodeLines_eq]
  cases allTexts ls <;> simp

/-- Candidate texts of a concatenated stream. -/
theorem allTexts_append (a b : List Line) :
    allTexts (a ++ b) = match allTexts a with
      | .error e => .error e
      | .ok ts =>
        match allTexts b with
        | .error e => .error e
        | .ok us => .ok (ts ++ us) := by
  induction a with
  | nil =>
    simp only [List.nil_append, allTexts]
    cases allTexts b <;> simp
  | cons l rest ih =>
    simp only [List.cons_append, allTexts, List.append_eq, ih]
    cases lineTexts l with
    | error e => rfl
    | ok ts =>
      cases allTexts rest with
      | error e => rfl
      | ok us =>
        cases allTexts b with
        | error e => rfl
        | ok vs => simp [List.append_assoc]

/-- A stream of blank and unparseable lines contributes no candidates. -/
theorem allTexts_of_unparsed (ls : List Line)
    (h : ∀ l ∈ ls, pyLineNonBlank l.content = false ∨ l.parsed = none) :
    allTexts ls = .ok [] := by
  induction ls with
  | nil => rfl
  | cons l rest ih =>
    have hl := h l (List.mem_cons_self l rest)
    have hr := ih (fun x hx => h x (List.mem_cons_of_mem l hx))
    have hline : lineTexts l = .ok [] := by
      rcases hl with hb | hp
      · unfold lineTexts
        rw [if_neg (by simp [hb])]
      · unfold lineTexts
        rw [hp]
        split <;> rfl
    simp [allTexts, hline, hr]

/-- The only exception the classifier step can raise is `AttributeError`
(a truthy non-string final text has no `.lower()`). -/
theorem pyStrOrEmpty_not_adk (j : Json) (e : PyErr)
    (h : pyStrOrEmpty j = .error e) : e = .attributeError := by
  unfold pyStrOrEmpty at h
  split at h <;> simp_all

/-! ## Claims -/

/-- Claim C1, counterexample: on the stream whose fragments carry the
texts `"hello"` and then `""`, decode returns `""` — the last candidate —
and not `"hello"`, the text of the last fragment with a non-empty text
part, so decode does not return the last non-empty text. -/
theorem decode_not_last_nonempty_cex :
    runDecode streamC1 = .ok (.str "") ∧
    runDecode streamC1 ≠ .ok (.str "hello") := by
  refine ⟨rfl, ?_⟩
  intro h
  rw [show runDecode streamC1 = Except.ok (Json.str "") from rfl] at h
  simp at h

/-- Claim C1, amended: for every stream that splits into lines decoding
without error, with a distinguished line whose fragment yields a
non-empty candidate list `cs` and with only candidate-free lines after
it, decode returns the last element of `cs` — the last text part
(possibly the empty string) of the last fragment containing a text part —
regardless of the content of the earlier lines; the last candidate string
of the accumulator is the finalized answer. -/
theorem decode_last_candidate (pre post : List Line) (l : Line) (ps cs : List Json)
    (hpre : allTexts pre = .ok ps) (hl : lineTexts l = .ok cs) (hcs : cs ≠ [])
    (hpost : allTexts post = .ok []) :
    runDecode (pre ++ l :: post) = .ok (cs.getLast hcs) := by
  have h1 : allTexts (l :: post) = .ok cs := by
    simp only [allTexts, hl, hpost, List.append_nil]
  have h2 : allTexts (pre ++ l :: post) = .ok (ps ++ cs) := by
    rw [allTexts_append, hpre, h1]
  rw [runDecode_eq, h2]
  simp [List.getLast?_append_of_ne_nil _ hcs, List.getLast?_eq_getLast_of_ne_nil hcs]

/-- Claim C1, witness: a one-fragment stream decodes to the text of that
fragment. -/
theorem decode_last_candidate_witness :
    runDecode [⟨"l1", some fragTextHello⟩] = .ok (.str "hello") :=
  decode_last_candidate [] [] ⟨"l1", some fragTextHello⟩ [] [.str "hello"] rfl rfl
    (by simp) rfl

/-- Claim C2, counterexample: the line `5` is not a well-formed fragment,
yet it is not discarded — `data.get("content", {})` raises an
`AttributeError` that escapes the decoding loop (only
`json.JSONDecodeError` is caught), so the whole decode aborts instead of
returning. -/
theorem decode_malformed_aborts_cex :
    runDecode [lineNum5] = .error .attributeError ∧
    runDecode [lineNum5] ≠ .ok (.str "") := by
  refine ⟨rfl, ?_⟩
  intro h
  rw [show runDecode [lineNum5] = Except.error PyErr.attributeError from rfl] at h
  exact Except.noConfusion h

/-- Claim C2, amended: a line on which structured parsing fails with a
`json.JSONDecodeError` is discarded and decoding continues with the next
line, as if the line were absent; a line that parses as JSON but is not
an object of the expected shape can instead raise an error out of the
decoding loop. -/
theorem decode_skips_unparseable (pre post : List Line) (l : Line)
    (hl : l.parsed = none) :
    runDecode (pre ++ l :: post) = runDecode (pre ++ post) := by
  have hline : lineTexts l = .ok [] := by
    unfold lineTexts
    rw [hl]
    split <;> rfl
  have h2 : allTexts (l :: post) = allTexts post := by
    simp only [allTexts, hline]
    cases allTexts post <;> simp
  have h1 : allTexts (pre ++ l :: post) = allTexts (pre ++ post) := by
    rw [allTexts_append, allTexts_append, h2]
  rw [runDecode_eq, runDecode_eq, h1]

/-- Claim C2, witness: dropping a concrete unparseable line does not
change the decode result. -/
theorem decode_skips_unparseable_witness :
    runDecode ([⟨"l1", some fragTextHello⟩] ++ (⟨"junk", none⟩ : Line) :: []) =
      runDecode ([⟨"l1", some fragTextHello⟩] ++ []) :=
  decode_skips_unparseable [⟨"l1", some fragTextHello⟩] [] ⟨"junk", none⟩ rfl

/-- Claim C3: on a stream in which every line is blank or fails
structured parsing, decode returns the empty string rather than an error,
and `call_adk` (with any metadata whose user-id derivation succeeds)
succeeds with verdict `"unverified"`, confidence `0.5` and an empty
`raw_final`. -/
theorem decode_empty_stream_unverified (ls : List Line) (metadata uid : Json)
    (hls : ∀ l ∈ ls, pyLineNonBlank l.content = false ∨ l.parsed = none)
    (hm : deriveUserId metadata = .ok uid) :
    runDecode ls = .ok (.str "") ∧
    call_adk ls metadata = .ok ⟨"unverified", 1/2, [], .str ""⟩ := by
  have ha := allTexts_of_unparsed ls hls
  have hd : runDecode ls = .ok (.str "") := by
    rw [runDecode_eq, ha]
    rfl
  refine ⟨hd, ?_⟩
  unfold call_adk runEnvelope
  rw [hm, hd]
  rfl

/-- Claim C3, witness: a concrete stream of one blank and one unparseable
line, with empty metadata. -/
theorem decode_empty_stream_unverified_witness :
    runDecode [(⟨"", none⟩ : Line), ⟨"junk", none⟩] = .ok (.str "") ∧
    call_adk [(⟨"", none⟩ : Line), ⟨"junk", none⟩] (.obj []) =
      .ok ⟨"unverified", 1/2, [], .str ""⟩ :=
  decode_empty_stream_unverified [⟨"", none⟩, ⟨"junk", none⟩] (.obj [])
    (.str "anonymous") (by simp) rfl

/-- Claim C4: the classifier is total by construction (`verdictOf` and
`confidenceOf` are Lean functions defined for every string); the verdict
is `"verified"` exactly when the text case-insensitively contains
`"legitimate"` or `"verdict: true"` and `"unverified"` otherwise, and the
confidence is `1.0` exactly when the text case-insensitively contains
`"confidence: 1.0"` and `0.5` otherwise. -/
theorem classifier_characterization (t : String) :
    (verdictOf t = "verified" ↔
      (containsCI t "legitimate" ∨ containsCI t "verdict: true")) ∧
    (verdictOf t = "unverified" ↔
      ¬(containsCI t "legitimate" ∨ containsCI t "verdict: true")) ∧
    (confidenceOf t = 1 ↔ containsCI t "confidence: 1.0") ∧
    (confidenceOf t = 1/2 ↔ ¬ containsCI t "confidence: 1.0") := by
  have e1 : strLower "legitimate" = "legitimate" := rfl
  have e2 : strLower "verdict: true" = "verdict: true" := rfl
  have e3 : strLower "confidence: 1.0" = "confidence: 1.0" := rfl
  unfold verdictOf confidenceOf containsCI
  rw [e1, e2, e3]
  cases h1 : strContains (strLower t) "legitimate" <;>
    cases h2 : strContains (strLower t) "verdict: true" <;>
      cases h3 : strContains (strLower t) "confidence: 1.0" <;>
        simp [h1, h2, h3]

/-- Claim C5, counterexample: with `wa_from` present but equal to the
empty string and `id` equal to `"bob"`, the code derives `"bob"` — the
derivation tests truthiness, not presence, so a present `wa_from` is
skipped when falsy. -/
theorem user_id_falsy_cex :
    deriveUserId metaC5 = .ok (.str "bob") ∧
    deriveUserId metaC5 ≠ .ok (.str "") := by
  refine ⟨rfl, ?_⟩
  intro h
  rw [show deriveUserId metaC5 = Except.ok (Json.str "bob") from rfl] at h
  simp at h

/-- Claim C5, amended: for every metadata dictionary whose effective user
block (`metadata.get("user") or {}`) is a dictionary, the derived
user id is the first truthy value among `user.wa_from`, `user.id` and the
literal `"anonymous"`, in that priority order; in particular empty
metadata yields `"anonymous"`. -/
theorem user_id_priority (fs us : List (String × Json))
    (hu : pyOr ((fs.lookup "user").getD .null) (.obj []) = .obj us) :
    deriveUserId (.obj fs) =
      .ok (pyOr ((us.lookup "wa_from").getD .null)
        (pyOr ((us.lookup "id").getD .null) (.str "anonymous"))) := by
  simp only [deriveUserId, Json.getKey, hu]

/-- Claim C5, witness: empty metadata derives the user id `"anonymous"`. -/
theorem user_id_priority_witness :
    deriveUserId (.obj []) = .ok (.str "anonymous") :=
  user_id_priority [] [] rfl

/-- Claim C6: a refresh attempt on which the provider interaction fails —
whether loading the service-account file or the refresh call itself —
leaves the whole credential state (token, expiry and environment) exactly
as it was, the call raises instead of returning, and the scheduler, which
catches the exception, still runs the remaining cycles as if the failed
cycle were absent. -/
theorem refresh_failure_atomic (st : RefreshState) (o : ProviderOutcome)
    (rest : List ProviderOutcome)
    (h : o = .fileError ∨ o = .refreshError) :
    (refresh_token st o).1 = st ∧ (refresh_token st o).2 = false ∧
    runCycles st (o :: rest) = runCycles st rest := by
  rcases h with h | h <;> subst h <;> exact ⟨rfl, rfl, rfl⟩

/-- Claim C6, witness: a concrete failed cycle followed by a successful
one. -/
theorem refresh_failure_atomic_witness :
    (refresh_token initialRefreshState .refreshError).1 = initialRefreshState ∧
    (refresh_token initialRefreshState .refreshError).2 = false ∧
    runCycles initialRefreshState [.refreshError, .success "tok" 100] =
      runCycles initialRefreshState [.success "tok" 100] :=
  refresh_failure_atomic initialRefreshState .refreshError [.success "tok" 100]
    (Or.inr rfl)

/-- Claim C7, counterexample: two successive successful refreshes whose
provider-supplied expiries are 100 and then 50 leave the store with
expiry 50, strictly below the 100 it replaced — the code stores whatever
the provider returns and enforces no monotonicity. -/
theorem expiry_monotone_cex :
    (runCycles initialRefreshState [.success "a" 100]).token_data.expiry = 100 ∧
    (runCycles initialRefreshState
      [.success "a" 100, .success "b" 50]).token_data.expiry = 50 ∧
    ¬ (100 : ℚ) ≤ (50 : ℚ) := by
  refine ⟨rfl, rfl, by norm_num⟩

/-- Claim C7, amended: each successful refresh stores exactly the
provider-supplied expiry, so the stored expiry is non-decreasing across
successive successful refreshes precisely when each provider-supplied
expiry is at least the stored one it replaces — a property of the
provider, not enforced by the code. -/
theorem expiry_tracks_provider (st : RefreshState) (tok : String) (exp : ℚ)
    (h : st.token_data.expiry ≤ exp) :
    ((refresh_token st (.success tok exp)).1).token_data.expiry = exp ∧
    st.token_data.expiry ≤ ((refresh_token st (.success tok exp)).1).token_data.expiry :=
  ⟨rfl, h⟩

/-- Claim C7, witness: a refresh whose provider expiry equals the stored
one keeps the expiry and is non-decreasing. -/
theorem expiry_tracks_provider_witness :
    ((refresh_token priorState (.success "newtok" 100)).1).token_data.expiry = 100 ∧
    priorState.token_data.expiry ≤
      ((refresh_token priorState (.success "newtok" 100)).1).token_data.expiry :=
  expiry_tracks_provider priorState "newtok" 100 (le_refl (100 : ℚ))

/-- Claim C8, counterexample: during a successful refresh from a stored
credential `("oldtok", 100)` to `("newtok", 200)`, the state reached
after the first write statement — an observable state, since the two dict
writes are separate unlocked statements — pairs the new token with the
old expiry, a mix that is neither the prior pair nor the new pair. -/
theorem torn_read_cex :
    ((observableStates priorState (.success "newtok" 200)).getD 1 priorState).token_data =
      { access_token := some "newtok", expiry := 100 } ∧
    ({ access_token := some "newtok", expiry := (100:ℚ) } : TokenData) ≠
      priorState.token_data ∧
    ({ access_token := some "newtok", expiry := (100:ℚ) } : TokenData) ≠
      { access_token := some "newtok", expiry := 200 } := by
  refine ⟨rfl, ?_, ?_⟩ <;> simp [priorState]

/-- Claim C8, amended: the token and expiry are not written as one
logical unit — a reader may also observe the intermediate pairing of the
new token with the prior expiry — but each individual field a reader
observes during a refresh is either its prior or its new value, never a
third one. -/
theorem field_values_old_or_new (st : RefreshState) (tok : String) (exp : ℚ)
    (s : RefreshState) (hs : s ∈ observableStates st (.success tok exp)) :
    (s.token_data.access_token = st.token_data.access_token ∨
      s.token_data.access_token = some tok) ∧
    (s.token_data.expiry = st.token_data.expiry ∨ s.token_data.expiry = exp) := by
  simp only [observableStates, refreshWriteStates, List.mem_cons,
    List.not_mem_nil, or_false] at hs
  rcases hs with h | h | h | h <;> subst h <;> simp

/-- Claim C8, witness: the prior state itself is observable and its
fields are the prior values. -/
theorem field_values_old_or_new_witness :
    (priorState.token_data.access_token = priorState.token_data.access_token ∨
      priorState.token_data.access_token = some "newtok") ∧
    (priorState.token_data.expiry = priorState.token_data.expiry ∨
      priorState.token_data.expiry = 200) :=
  field_values_old_or_new priorState "newtok" 200 priorState
    (List.mem_cons_self _ _)

/-- Claim C9, counterexample: `schedule_refresh(2900)` performs a refresh
attempt in the calling execution unit before it returns — its caller-side
action sequence contains a refresh attempt and is not just the thread
start — so the initial refresh is not on the background unit and the call
does not return immediately. -/
theorem caller_refresh_cex :
    SchedAction.refreshAttempt ∈ schedule_refresh_caller 2900 ∧
    schedule_refresh_caller 2900 ≠ [SchedAction.startBackground] := by
  refine ⟨?_, ?_⟩ <;> decide

/-- Claim C9, amended: for every interval, `schedule_refresh` performs
one synchronous refresh attempt in the caller and then starts the
background unit and returns; the background unit repeats sleep-interval
followed by a refresh attempt, indefinitely — each of its first `n`
cycles contains exactly one refresh attempt. -/
theorem scheduler_trace_shape (interval n : Nat) :
    schedule_refresh_caller interval = [.refreshAttempt, .startBackground] ∧
    backgroundTrace interval (n + 1) =
      .sleep interval :: .refreshAttempt :: backgroundTrace interval n ∧
    (backgroundTrace interval n).count .refreshAttempt = n := by
  refine ⟨rfl, rfl, ?_⟩
  induction n with
  | zero => rfl
  | succ k ih =>
    simp [backgroundTrace, backgroundCycle, List.count_cons, ih]

/-- Claim C10: whenever the decode succeeds with final text `t`, `_run`
returns exactly the envelope `{logs: [entry]}` whose single entry has
`content.parts[0].text = t`; on that envelope the `logs` check and the
final-text extraction of `call_adk` cannot raise an `ADKError`, so the
missing-logs and malformed-response branches are unreachable on the
success path. -/
theorem envelope_success_shape (ls : List Line) (t : Json)
    (h : runDecode ls = .ok t) :
    runEnvelope ls = .ok (envelopeOf t) ∧
    isAdkErrorResult (call_adk_post (envelopeOf t)) = false := by
  constructor
  · unfold runEnvelope
    rw [h]
  · have hred : call_adk_post (envelopeOf t) = match pyStrOrEmpty t with
      | .error e => .error e
      | .ok ft => .ok ⟨verdictOf ft, confidenceOf ft, [], t⟩ := rfl
    rw [hred]
    cases hp : pyStrOrEmpty t with
    | error e => rw [pyStrOrEmpty_not_adk t e hp]; rfl
    | ok ft => rfl

/-- Claim C10, witness: the empty stream decodes to the empty text and
its envelope passes both checks. -/
theorem envelope_success_shape_witness :
    runEnvelope [] = .ok (envelopeOf (.str "")) ∧
    isAdkErrorResult (call_adk_post (envelopeOf (.str ""))) = false :=
  envelope_success_shape [] (.str "") rfl

end TruthGuard
